import Mathlib

/-!
# Verification of the web-cloner crawl-and-localize pipeline

A shallow embedding of the core of `src/downloader.py` (class
`WebsiteDownloader`) and `src/utils.py` of the AuthWang/web-cloner
repository, together with proofs and refutations of the specification's
claims about it.

Conventions:
* Python strings are Lean `String`s; Python `set`s and `list`s of the
  downloader state are Lean `List`s (the sets are only ever extended with
  elements checked to be fresh, so a list models them exactly and keeps
  insertion order observable).
* `pathlib.Path` values are modelled by `PPath` (an absolute-flag plus the
  list of components; `pathlib` drops `""` and `"."` segments on `/`).
* The external collaborators (Playwright rendering, `requests.get`,
  BeautifulSoup parsing, the filesystem) are modelled by a `Site` record of
  outcome functions; the `urllib.parse` and `os.path` helpers that the code
  calls are translated faithfully from CPython.
-/

namespace WebCloner

/-! ## Python string primitives -/

/-- Split a character list at the first character satisfying `p`; the matching
character itself is dropped.  `none` when no character matches.  This is the
skeleton of Python's `str.find` + slicing idiom. -/
def splitFirst (p : Char → Bool) : List Char → Option (List Char × List Char)
  | [] => none
  | c :: cs =>
    if p c then some ([], cs)
    else match splitFirst p cs with
      | some (a, b) => some (c :: a, b)
      | none => none

/-- Index of the last character satisfying `p` (Python `str.rfind`). -/
def rIdx (p : Char → Bool) (cs : List Char) : Option Nat :=
  match List.findIdx? p cs.reverse with
  | some k => some (cs.length - 1 - k)
  | none => none

/-- Python slice `l[:n]` where `n` may be negative (counts from the end). -/
def pyTake (n : Int) (cs : List Char) : List Char :=
  if 0 ≤ n then cs.take n.toNat else cs.take (cs.length - (-n).toNat)

/-- Bool substring test, modelling Python's `needle in haystack`. -/
def strContains (s pat : String) : Bool :=
  s.toList.tails.any (fun t => pat.toList.isPrefixOf t)

/-- `str.startswith` (structural re-implementation, kernel-reducible). -/
def strStartsWith (s pre : String) : Bool :=
  pre.toList.isPrefixOf s.toList

/-- `str.lower` restricted to ASCII (structural re-implementation). -/
def strToLower (s : String) : String :=
  (s.toList.map Char.toLower).asString

/-- Split a character list on a separator character, Python
`str.split(sep)` style: `"" ↦ [""]`, separators at the ends produce empty
pieces. -/
def splitListOn (c : Char) : List Char → List (List Char)
  | [] => [[]]
  | x :: xs =>
    let r := splitListOn c xs
    if x == c then [] :: r
    else match r with
      | [] => [[x]]
      | h :: t => (x :: h) :: t

/-- `str.split(sep)` for a one-character separator. -/
def pySplit (s : String) (c : Char) : List String :=
  (splitListOn c s.toList).map List.asString

/-- `sep.join(l)` (structural re-implementation). -/
def strJoin (sep : String) : List String → String
  | [] => ""
  | [a] => a
  | a :: rest => a ++ sep ++ strJoin sep rest

/-! ## `os.path.splitext` and `sanitize_filename` (src/utils.py) -/

/-- `os.path.splitext` (posix): split at the last dot that comes after the
last `/` and has at least one non-dot character between them (so that
leading-dot names such as `.bashrc` are not split). -/
def splitextStr (p : String) : String × String :=
  let cs := p.toList
  let sepIdx : Int := match rIdx (fun c => c == '/') cs with
    | some k => (k : Int)
    | none => -1
  let dotIdx : Int := match rIdx (fun c => c == '.') cs with
    | some k => (k : Int)
    | none => -1
  if sepIdx < dotIdx then
    let start := (sepIdx + 1).toNat
    let mid := (cs.drop start).take (dotIdx.toNat - start)
    if mid.any (fun c => c != '.') then
      ((cs.take dotIdx.toNat).asString, (cs.drop dotIdx.toNat).asString)
    else (p, "")
  else (p, "")

/-- The characters `re.sub(r'[<>:"/\\|?*]', '_', ...)` replaces. -/
def illegalChar (c : Char) : Bool :=
  c == '<' || c == '>' || c == ':' || c == '"' || c == '/' ||
  c == '\\' || c == '|' || c == '?' || c == '*'

/-- `utils.sanitize_filename`: replace illegal filesystem characters by `_`
and cap the length at 200 keeping the extension. -/
def sanitize_filename (filename : String) : String :=
  let s := (filename.toList.map (fun c => if illegalChar c then '_' else c)).asString
  if 200 < s.length then
    let ne := splitextStr s
    ((pyTake (200 - (ne.2.length : Int)) ne.1.toList).asString) ++ ne.2
  else s

/-! ## `urllib.parse` (used by utils.normalize_url / url_to_filename)

Translated from CPython's `urlparse`, `urljoin`, `urlunparse`.  Control
character stripping and byte/str coercion are omitted (all inputs considered
here are plain strings without control characters), as is the `';'`-params
special-casing per scheme (CPython splits params for every scheme). -/

structure UrlParts where
  scheme : String
  netloc : String
  path : String
  params : String
  query : String
  fragment : String
deriving DecidableEq, Repr

/-- Characters allowed in a URL scheme (`urllib.parse.scheme_chars`). -/
def isSchemeChar (c : Char) : Bool :=
  c.isAlpha || c.isDigit || c == '+' || c == '-' || c == '.'

/-- `urllib.parse._splitparams`: split `;params` off the last path segment. -/
def splitParamsChars (cs : List Char) : List Char × List Char :=
  match rIdx (fun c => c == '/') cs with
  | some k =>
    match splitFirst (fun c => c == ';') (cs.drop k) with
    | some (a, b) => (cs.take k ++ a, b)
    | none => (cs, [])
  | none =>
    match splitFirst (fun c => c == ';') cs with
    | some (a, b) => (a, b)
    | none => (cs, [])

/-- `urllib.parse.urlparse url defScheme`: six components, with `defScheme`
used when the URL carries no scheme of its own. -/
def urlparseWith (url : String) (defScheme : String) : UrlParts :=
  let cs := url.toList
  let schemeRest : String × List Char :=
    match splitFirst (fun c => c == ':') cs with
    | some (before, after) =>
      match before with
      | [] => (defScheme, cs)
      | c0 :: _ =>
        if c0.isAlpha && before.all isSchemeChar then
          ((before.map Char.toLower).asString, after)
        else (defScheme, cs)
    | none => (defScheme, cs)
  let scheme := schemeRest.1
  let rest := schemeRest.2
  let netlocRest : String × List Char :=
    match rest with
    | '/' :: '/' :: r =>
      let nl := r.takeWhile (fun c => c != '/' && c != '?' && c != '#')
      (nl.asString, r.drop nl.length)
    | _ => ("", rest)
  let netloc := netlocRest.1
  let rest := netlocRest.2
  let restFrag : List Char × String :=
    match splitFirst (fun c => c == '#') rest with
    | some (b, a) => (b, a.asString)
    | none => (rest, "")
  let fragment := restFrag.2
  let pathQuery : List Char × String :=
    match splitFirst (fun c => c == '?') restFrag.1 with
    | some (b, a) => (b, a.asString)
    | none => (restFrag.1, "")
  let query := pathQuery.2
  let pp := splitParamsChars pathQuery.1
  { scheme := scheme, netloc := netloc, path := pp.1.asString,
    params := pp.2.asString, query := query, fragment := fragment }

/-- `urllib.parse.urlparse` with the empty default scheme. -/
def urlparse (url : String) : UrlParts := urlparseWith url ""

/-- `utils.get_domain_from_url`. -/
def get_domain_from_url (url : String) : String := (urlparse url).netloc

/-- `utils.is_same_domain`. -/
def is_same_domain (url1 url2 : String) : Bool :=
  get_domain_from_url url1 == get_domain_from_url url2

/-- `urllib.parse.uses_relative` (the members that matter here are `""`,
`"http"` and `"https"`). -/
def uses_relative : List String :=
  ["", "ftp", "http", "gopher", "nntp", "imap", "wais", "file", "https",
   "shttp", "mms", "prospero", "rtsp", "rtspu", "sftp", "svn", "svn+ssh",
   "ws", "wss"]

/-- `urllib.parse.uses_netloc` (the members that matter here are `""`,
`"http"` and `"https"`). -/
def uses_netloc : List String :=
  ["", "ftp", "http", "gopher", "nntp", "telnet", "imap", "wais", "file",
   "mms", "https", "shttp", "snews", "prospero", "rtsp", "rtspu", "rsync",
   "svn", "svn+ssh", "sftp", "nfs", "git", "git+ssh", "ws", "wss"]

/-- `urllib.parse.urlunsplit`. -/
def urlunsplitM (scheme netloc path query fragment : String) : String :=
  let url := path
  let url :=
    if netloc != "" || (url != "" && strStartsWith url "//") then
      let url := if url != "" && !(strStartsWith url "/") then "/" ++ url else url
      "//" ++ netloc ++ url
    else url
  let url := if scheme != "" then scheme ++ ":" ++ url else url
  let url := if query != "" then url ++ "?" ++ query else url
  if fragment != "" then url ++ "#" ++ fragment else url

/-- `urllib.parse.urlunparse`. -/
def urlunparse (u : UrlParts) : String :=
  urlunsplitM u.scheme u.netloc
    (if u.params != "" then u.path ++ ";" ++ u.params else u.path)
    u.query u.fragment

/-- CPython's `segments[1:-1] = filter(None, segments[1:-1])`: drop empty
segments, keeping the first and last elements untouched. -/
def pyFilterInner (l : List String) : List String :=
  match l with
  | [] => []
  | [a] => [a]
  | a :: rest =>
    match rest.getLast? with
    | none => [a]
    | some last => a :: (rest.dropLast.filter (fun s => s != "")) ++ [last]

/-- CPython's dot-segment resolution loop in `urljoin`. -/
def resolveSegments (segments : List String) : List String :=
  let resolved := segments.foldl
    (fun acc seg =>
      if seg == ".." then acc.dropLast
      else if seg == "." then acc
      else acc ++ [seg]) []
  if segments.getLastD "" == "." || segments.getLastD "" == ".." then
    resolved ++ [""]
  else resolved

/-- `urllib.parse.urljoin base url` (translated line by line from CPython). -/
def urljoin (base url : String) : String :=
  if base == "" then url
  else if url == "" then base
  else
    let b := urlparseWith base ""
    let u := urlparseWith url b.scheme
    if u.scheme != b.scheme || !(uses_relative.contains u.scheme) then url
    else if uses_netloc.contains u.scheme && u.netloc != "" then urlunparse u
    else
      let netloc := if uses_netloc.contains u.scheme then b.netloc else u.netloc
      if u.path == "" && u.params == "" then
        urlunparse { u with
          netloc := netloc
          path := b.path
          params := b.params
          query := if u.query == "" then b.query else u.query }
      else
        let baseParts := pySplit b.path '/'
        let baseParts := if baseParts.getLastD "" != "" then baseParts.dropLast else baseParts
        let segments :=
          if strStartsWith u.path "/" then pySplit u.path '/'
          else pyFilterInner (baseParts ++ pySplit u.path '/')
        let joined := strJoin "/" (resolveSegments segments)
        urlunparse { u with
          netloc := netloc
          path := if joined == "" then "/" else joined }

/-- `utils.normalize_url url base_url` is `urljoin(base_url, url)`. -/
def normalize_url (url baseUrl : String) : String := urljoin baseUrl url

/-! ## `pathlib.Path` model and `utils.url_to_filename` -/

/-- A `pathlib.PurePosixPath`: an absolute-path flag and the component list.
Joining drops `""` and `"."` segments exactly as `pathlib` does; `".."` is
kept (pathlib does not resolve parent references). -/
structure PPath where
  absolute : Bool
  comps : List String
deriving DecidableEq, Repr

/-- `p / seg` for a single segment. -/
def pathDiv (p : PPath) (seg : String) : PPath :=
  if seg == "" || seg == "." then p else { p with comps := p.comps ++ [seg] }

/-- `p / Path(*segs)`. -/
def pathJoin (p : PPath) (segs : List String) : PPath :=
  segs.foldl pathDiv p

/-- `Path.parent`. -/
def pathParent (p : PPath) : PPath := { p with comps := p.comps.dropLast }

/-- `str(path)` (posix). -/
def pathStr (p : PPath) : String :=
  if p.absolute then "/" ++ strJoin "/" p.comps
  else if p.comps.isEmpty then "." else strJoin "/" p.comps

/-- `child.relative_to(base)`: requires the same anchor and `base` to be an
exact component prefix, otherwise `ValueError` (here `none`). -/
def relativeTo (child base : PPath) : Option PPath :=
  if base.absolute == child.absolute && base.comps.isPrefixOf child.comps then
    some { absolute := false, comps := child.comps.drop base.comps.length }
  else none

/-- Strip all leading `/` (Python `str.lstrip('/')`). -/
def lstripSlash (s : String) : String :=
  (s.toList.dropWhile (fun c => c == '/')).asString

/-- Strip all trailing `/` (Python `str.rstrip('/')`). -/
def rstripSlash (s : String) : String :=
  (s.toList.reverse.dropWhile (fun c => c == '/')).reverse.asString

/-- `utils.url_to_filename url base_dir`: map a URL to the local path
`base_dir / netloc / sanitized path segments`, defaulting extensionless
paths to `.../index.html`.  The query string and fragment are discarded by
`urlparse` and play no part in the result. -/
def url_to_filename (url : String) (baseDir : PPath) : PPath :=
  let parsed := urlparse url
  let path := parsed.path
  let path :=
    if path == "" || path == "/" then "/index.html"
    else if (splitextStr path).2 == "" then rstripSlash path ++ "/index.html"
    else path
  let path := lstripSlash path
  let parts := (pySplit path '/').map sanitize_filename
  pathJoin (pathDiv baseDir parsed.netloc) parts

/-! ## Downloader data model (src/downloader.py `WebsiteDownloader`)

The `resource_type` strings used by the code are `'css'`, `'js'`,
`'images'`, `'fonts'`, `'other'`; they index `self.stats`. -/

inductive RType
  | css
  | js
  | images
  | fonts
  | other
deriving DecidableEq, Repr

/-- `self.stats`: the per-type counters, the page counter and
`total_size`. -/
structure Stats where
  pages : Nat
  css : Nat
  js : Nat
  images : Nat
  fonts : Nat
  other : Nat
  totalSize : Nat
deriving DecidableEq, Repr

/-- `self.stats[resource_type] += 1; self.stats['total_size'] += file_size`
(the two dictionary updates the success path performs). -/
def Stats.bump (s : Stats) (rt : RType) (size : Nat) : Stats :=
  match rt with
  | .css => { s with css := s.css + 1, totalSize := s.totalSize + size }
  | .js => { s with js := s.js + 1, totalSize := s.totalSize + size }
  | .images => { s with images := s.images + 1, totalSize := s.totalSize + size }
  | .fonts => { s with fonts := s.fonts + 1, totalSize := s.totalSize + size }
  | .other => { s with other := s.other + 1, totalSize := s.totalSize + size }

/-- `self.stats['pages'] += 1`. -/
def Stats.bumpPages (s : Stats) : Stats := { s with pages := s.pages + 1 }

/-- An entry of `self.failed_downloads`.  The source appends plain dicts;
the `type` key is absent for page-level failures and the `severity` key is
absent for data-URI failures, hence the `Option` fields. -/
structure FailRec where
  url : String
  rtype : Option RType
  error : String
  severity : Option String
deriving DecidableEq, Repr

/-- Outcome of `requests.get` + `raise_for_status` + streaming to disk for
one URL (the external HTTP/filesystem collaborators):
* `success size`: status OK and the file was written (`size` bytes);
* `httpError msg`: `raise_for_status` raised `requests.exceptions.HTTPError`
  with message `msg` (a 404 produces a message containing `"404"`);
* `requestError msg`: a network-level `requests.exceptions.RequestException`;
* `writeError msg`: any other exception after the request — in particular an
  `OSError` while creating directories or writing the fetched bytes to disk
  (caught by the final `except Exception` branch of `_download_resource`). -/
inductive FetchOutcome
  | success (size : Nat)
  | httpError (msg : String)
  | requestError (msg : String)
  | writeError (msg : String)
deriving DecidableEq, Repr

def FetchOutcome.isSuccess : FetchOutcome → Bool
  | .success _ => true
  | _ => false

/-- Outcome of `_download_data_uri`'s regex parse + decode + write:
`ok name size` stores the content-hash-derived file name and byte count,
`invalid` is a regex mismatch (warned, nothing recorded), `err` is a raised
exception (recorded with url key `'data-uri'` and no severity key). -/
inductive DataResult
  | ok (name : String) (size : Nat)
  | invalid
  | err (msg : String)
deriving DecidableEq, Repr

/-- Outcome of rendering one page in `_download_recursive_with_context`:
* `ok tasks hrefs`: the page rendered; `tasks` are the resource download
  tasks `_download_page_resources` collects from the soup and the observed
  network responses (BeautifulSoup parsing and the config toggles are
  external to the state machine and folded into this value), `hrefs` the
  raw `<a href>` values `_extract_links` reads;
* `noContent`: `_get_page_content_with_retry` returned `None`;
* `exn msg`: `page.goto`/`page.content` raised with message `msg`. -/
inductive RenderResult
  | ok (tasks : List (String × RType)) (hrefs : List String)
  | noContent
  | exn (msg : String)
deriving DecidableEq, Repr

def RenderResult.isOk : RenderResult → Bool
  | .ok _ _ => true
  | _ => false

/-- The external collaborators, per URL: the rendering engine, the HTTP
fetch primitive (with the filesystem write folded into its outcome), the
`url()` regex matches `_parse_css_urls` finds in the stored stylesheet
fetched from a URL, and the data-URI decoder. -/
structure Site where
  render : String → RenderResult
  fetch : String → FetchOutcome
  cssRaw : String → List String
  dataUri : String → DataResult

/-- The configuration keys the crawl reads (`config.get` defaults:
`max_depth` 3, `max_pages` 50, `follow_external_links` False). -/
structure Config where
  maxDepth : Nat
  maxPages : Nat
  followExternalLinks : Bool
  outputDir : PPath
deriving DecidableEq, Repr

/-- The mutable state of a `WebsiteDownloader`.  The first five fields are
the object's attributes (`visited_urls`, `downloaded_files`,
`failed_downloads`, `stats`, `resource_map`); the last four are ghost
event logs used only to state claims: `fetchLog` records each URL whose
network download / data-URI decode was actually started (one entry per
fetch performed), `cssPassLog` each stylesheet put through
`_process_css_resources`, `visitLog` each `(url, depth)` added to
`visited_urls`, and `savedPages` each page whose HTML was obtained and
saved (the increments of `stats['pages']`). -/
structure DState where
  visitedUrls : List String
  downloadedFiles : List String
  failedDownloads : List FailRec
  stats : Stats
  resourceMap : List (String × PPath)
  fetchLog : List String
  cssPassLog : List String
  visitLog : List (String × Nat)
  savedPages : List String
deriving DecidableEq, Repr

/-- The freshly constructed downloader state. -/
def initState : DState :=
  ⟨[], [], [], ⟨0, 0, 0, 0, 0, 0, 0⟩, [], [], [], [], []⟩

/-! ## Resource download (`_download_resource` and friends) -/

/-- `ext = url.lower().split('?')[0].split('.')[-1]`. -/
def extOf (url : String) : String :=
  let lowered := strToLower url
  let beforeQ := (pySplit lowered '?').headD lowered
  (pySplit beforeQ '.').getLastD beforeQ

/-- The extension classification used by `_process_css_resources` and the
`<style>`-block collection: fonts, then images, else `'other'`. -/
def classifyExt (url : String) : RType :=
  if ["woff", "woff2", "ttf", "eot", "otf"].contains (extOf url) then .fonts
  else if ["png", "jpg", "jpeg", "gif", "svg", "webp", "ico"].contains (extOf url) then .images
  else .other

/-- `_parse_css_urls`: of the `url()` regex matches, skip `data:` URIs and
normalize the rest against the stylesheet's URL. -/
def parseCssUrls (raws : List String) (baseUrl : String) : List String :=
  (raws.filter (fun m => !(strStartsWith m "data:"))).map (fun m => normalize_url m baseUrl)

/-- `_download_data_uri`: decode, write under `output_dir/'data-uris'`,
bump the statistics and register the resource; a malformed URI returns
silently, a raised exception appends a record with url `'data-uri'` and no
severity key. -/
def downloadDataUri (site : Site) (cfg : Config) (st : DState)
    (url : String) (rt : RType) : DState :=
  match site.dataUri url with
  | .ok name size =>
    { st with
      stats := st.stats.bump rt size
      resourceMap := st.resourceMap ++ [(url, pathJoin cfg.outputDir ["data-uris", name])] }
  | .invalid => st
  | .err msg =>
    { st with failedDownloads := st.failedDownloads ++ [⟨"data-uri", some rt, msg, none⟩] }

/-- `self.downloaded_files.add(url)`, performed *before* any fetching; the
ghost `fetchLog` entry marks that the fetch/decode work for this URL was
started. -/
def markFetched (st : DState) (url : String) : DState :=
  { st with
    downloadedFiles := st.downloadedFiles ++ [url]
    fetchLog := st.fetchLog ++ [url] }

/-- `self.failed_downloads.append(record)`. -/
def addFail (st : DState) (r : FailRec) : DState :=
  { st with failedDownloads := st.failedDownloads ++ [r] }

/-- The success path of `_download_resource` after the bytes are on disk:
`self.stats[resource_type] += 1; self.stats['total_size'] += file_size;
self.resource_map[url] = file_path`. -/
def registerSuccess (cfg : Config) (st : DState) (url : String)
    (rt : RType) (size : Nat) : DState :=
  { st with
    stats := st.stats.bump rt size
    resourceMap := st.resourceMap ++ [(url, url_to_filename url cfg.outputDir)] }

/-- The body of `_download_resource url resource_type base_url`, shared by
its two instantiations below.  `cssCont` is the continuation run when a
stylesheet was fetched successfully: `_process_css_resources` when
`base_url` is truthy, nothing when it is falsy (the `resource_type ==
'css' and base_url` conjunction of the source is split between the `rt`
test here and the choice of `cssCont`). -/
def downloadResourceBody (site : Site) (cfg : Config)
    (cssCont : DState → String → DState) (st : DState)
    (url : String) (rt : RType) : DState :=
  if url ∈ st.downloadedFiles then st
  else if strStartsWith url "data:" then
    downloadDataUri site cfg (markFetched st url) url rt
  else
    match site.fetch url with
    | .success size =>
      if rt = RType.css then
        cssCont (registerSuccess cfg (markFetched st url) url rt size) url
      else registerSuccess cfg (markFetched st url) url rt size
    | .httpError msg =>
      if strContains msg "404" then
        addFail (markFetched st url) ⟨url, some rt, "404 Not Found", some "info"⟩
      else addFail (markFetched st url) ⟨url, some rt, msg, some "warning"⟩
    | .requestError msg =>
      addFail (markFetched st url) ⟨url, some rt, msg, some "warning"⟩
    | .writeError msg =>
      addFail (markFetched st url) ⟨url, some rt, msg, some "warning"⟩

/-- `_download_resource url resource_type None`: with a falsy `base_url`
the stylesheet branch is dead, so a fetched stylesheet gets no second
resolution pass. -/
def downloadResourceNone (site : Site) (cfg : Config) :
    DState → String → RType → DState :=
  downloadResourceBody site cfg (fun st _ => st)

/-- `_process_css_resources`: record the second resolution pass in the
ghost `cssPassLog`, then download every `url()` reference of the stored
stylesheet, classified by extension, via `_download_resource(url, rtype,
base_url=None)` — note the `None`, which is what bounds stylesheet
recursion to one level. -/
def processCssResources (site : Site) (cfg : Config) (st : DState)
    (cssUrl : String) : DState :=
  let st1 := { st with cssPassLog := st.cssPassLog ++ [cssUrl] }
  (parseCssUrls (site.cssRaw cssUrl) cssUrl).foldl
    (fun s u => downloadResourceNone site cfg s u (classifyExt u)) st1

/-- `_download_resource url resource_type base_url` with a truthy
`base_url`: a fetched stylesheet goes through `_process_css_resources`. -/
def downloadResourceSome (site : Site) (cfg : Config) :
    DState → String → RType → DState :=
  downloadResourceBody site cfg (fun st u => processCssResources site cfg st u)

/-- Python truthiness of the `base_url : Optional[str]` argument. -/
def baseTruthy : Option String → Bool
  | some b => b != ""
  | none => false

/-- `_download_resource(url, resource_type, base_url)`. -/
def downloadResource (site : Site) (cfg : Config) (st : DState)
    (url : String) (rt : RType) (baseUrl : Option String) : DState :=
  if baseTruthy baseUrl then downloadResourceSome site cfg st url rt
  else downloadResourceNone site cfg st url rt

/-- `_download_page_resources`: the collected tasks are dispatched with
`base_url = page_url`.  The `asyncio.gather` + semaphore fan-out completes
in some order, but every shared-state mutation happens between awaits of
the single event loop and the per-task updates commute, so the sequential
fold in task order is the reference semantics; each task's exceptions are
contained inside `_download_resource` / `download_with_limit`. -/
def downloadPageResources (site : Site) (cfg : Config) (st : DState)
    (pageUrl : String) (tasks : List (String × RType)) : DState :=
  tasks.foldl (fun s t => downloadResource site cfg s t.1 t.2 (some pageUrl)) st

/-- An arbitrary sequence of `_download_resource` calls, as performed over
a whole crawl. -/
def runCalls (site : Site) (cfg : Config) (st : DState)
    (calls : List (String × RType × Option String)) : DState :=
  calls.foldl (fun s c => downloadResource site cfg s c.1 c.2.1 c.2.2) st

/-! ## Link rewriting (`_rewrite_html_links`, `_get_relative_path`)

`_rewrite_html_links` tests `original_url in self.resource_map` and then
calls `_get_relative_path`, which recomputes `url_to_filename` for both
ends rather than reading the stored path — so only the registry's *key
set* matters, modelled as `keys : List String`.  Markup is modelled as the
parsed tag soup: a list of tags each with a name and optional `href`/`src`
attributes (BeautifulSoup's parse/print round-trip is the identity on this
representation). -/

/-- `_get_relative_path from_url to_url`: path of the target relative to
the page's directory, falling back to the absolute path string when
`relative_to` raises `ValueError`. -/
def get_relative_path (outDir : PPath) (fromUrl toUrl : String) : String :=
  let fromPath := url_to_filename fromUrl outDir
  let toPath := url_to_filename toUrl outDir
  match relativeTo toPath (pathParent fromPath) with
  | some rel => pathStr rel
  | none => pathStr toPath

/-- One tag of the parsed markup. -/
structure HTag where
  name : String
  href : Option String
  src : Option String
deriving DecidableEq, Repr

/-- Rewriting of one attribute value: normalize against the page URL and,
if registered, replace by the relative local path. -/
def rewriteRef (keys : List String) (outDir : PPath) (baseUrl v : String) : String :=
  let originalUrl := normalize_url v baseUrl
  if keys.contains originalUrl then get_relative_path outDir baseUrl originalUrl
  else v

/-- The four `find_all` passes of `_rewrite_html_links` (`link`/`href`,
`script`/`src`, `img`/`src`, `a`/`href`); the passes touch disjoint tags,
so per tag exactly one rule fires, selected by the tag name. -/
def rewriteTag (keys : List String) (outDir : PPath) (baseUrl : String)
    (t : HTag) : HTag :=
  if t.name == "link" then { t with href := t.href.map (rewriteRef keys outDir baseUrl) }
  else if t.name == "script" then { t with src := t.src.map (rewriteRef keys outDir baseUrl) }
  else if t.name == "img" then { t with src := t.src.map (rewriteRef keys outDir baseUrl) }
  else if t.name == "a" then { t with href := t.href.map (rewriteRef keys outDir baseUrl) }
  else t

/-- `_rewrite_html_links html base_url` over the parsed soup. -/
def rewrite_html_links (keys : List String) (outDir : PPath)
    (html : List HTag) (baseUrl : String) : List HTag :=
  html.map (rewriteTag keys outDir baseUrl)

/-- The attribute of a tag that `_rewrite_html_links` rewrites, if any. -/
def tagRef (t : HTag) : Option String :=
  if t.name == "link" then t.href
  else if t.name == "script" then t.src
  else if t.name == "img" then t.src
  else if t.name == "a" then t.href
  else none

/-! ## Frontier traversal (`_download_recursive_with_context`) -/

/-- `_extract_links html base_url`: normalize each `<a href>`, keep only
http(s) links, filter foreign domains unless `follow_external_links`, and
drop URLs already visited or already collected. -/
def extractLinks (cfg : Config) (startUrl : String) (visited : List String)
    (baseUrl : String) (hrefs : List String) : List String :=
  hrefs.foldl (fun links href =>
    let url := normalize_url href baseUrl
    if !(strStartsWith url "http://" || strStartsWith url "https://") then links
    else if !cfg.followExternalLinks && !(is_same_domain url startUrl) then links
    else if url ∈ visited ∨ url ∈ links then links
    else links ++ [url]) []

/-- `self.visited_urls.add(url)`, plus the ghost `(url, depth)` visit-log
entry. -/
def markVisited (st : DState) (url : String) (depth : Nat) : DState :=
  { st with
    visitedUrls := st.visitedUrls ++ [url]
    visitLog := st.visitLog ++ [(url, depth)] }

/-- `_save_html url html` followed by `self.stats['pages'] += 1`: the
rewritten HTML is written to `url_to_filename url`, the page is registered
in `resource_map`, and the page counter is bumped (mirrored by the ghost
`savedPages` log). -/
def savePage (cfg : Config) (st : DState) (url : String) : DState :=
  { st with
    resourceMap := st.resourceMap ++ [(url, url_to_filename url cfg.outputDir)]
    savedPages := st.savedPages ++ [url]
    stats := st.stats.bumpPages }

/-- The record the `except` clause of `_download_recursive_with_context`
appends: no `type` key, severity `'info'` when the message is the
BeautifulSoup `'Incoming markup'` type error, `'error'` otherwise. -/
def pageFailRecord (url msg : String) : FailRec :=
  ⟨url, none, msg,
    some (if strContains msg "Incoming markup" then "info" else "error")⟩

/-- `_download_recursive_with_context`, with an explicit fuel for the
recursion.  The fuel is instantiated to `max_depth + 1 - depth` by
`downloadRecursive` below, so fuel `0` occurs exactly when
`depth > max_depth` — where the source's first guard returns without
effect just like the fuel-0 case here, and the recursive calls at
`depth + 1` receive exactly the fuel of the wrapper.  Guard order, the
point where the URL joins `visited_urls`, the three render outcomes
(saving the page + `stats['pages'] += 1` + resource download + recursion
into extracted links in order; content retrieval returning `None`;
an exception, recorded with severity `'error'` unless the message contains
`'Incoming markup'`) follow the source.  `_download_recursive` (the
`Browser` variant) has the identical structure; the context variant
passes the live `page` object to `_extract_links`, which in practice
raises and lands in the same `except` branch — modelled here as an `exn`
render outcome is not needed for any claim, while the recursion below
follows the intended (and `_download_recursive`'s actual) call
`_extract_links(html, url)`. -/
def downloadRecursiveF (site : Site) (cfg : Config) (startUrl : String) :
    Nat → String → Nat → DState → DState
  | 0, _, _, st => st
  | fuel + 1, url, depth, st =>
    if cfg.maxDepth < depth then st
    else if url ∈ st.visitedUrls then st
    else if cfg.maxPages ≤ st.visitedUrls.length then st
    else if !cfg.followExternalLinks && !(is_same_domain url startUrl) then st
    else
      match site.render url with
      | .noContent => markVisited st url depth
      | .exn msg => addFail (markVisited st url depth) (pageFailRecord url msg)
      | .ok tasks hrefs =>
        let st3 := downloadPageResources site cfg
          (savePage cfg (markVisited st url depth) url) url tasks
        let links := extractLinks cfg startUrl st3.visitedUrls url hrefs
        links.foldl (fun s l => downloadRecursiveF site cfg startUrl fuel l (depth + 1) s) st3

/-- `_download_recursive_with_context(context, url, depth)` — the fuel is
fixed by the depth guard, see `downloadRecursiveF`. -/
def downloadRecursive (site : Site) (cfg : Config) (startUrl : String)
    (url : String) (depth : Nat) (st : DState) : DState :=
  downloadRecursiveF site cfg startUrl (cfg.maxDepth + 1 - depth) url depth st

/-! ## Report (`_generate_report`) -/

structure Report where
  startUrl : String
  baseDomain : String
  pagesDownloaded : Nat
  cssFiles : Nat
  jsFiles : Nat
  images : Nat
  fonts : Nat
  otherFiles : Nat
  totalFiles : Nat
  totalSizeBytes : Nat
  visitedUrls : List String
  failedDownloads : List FailRec
  outputDirectory : PPath
deriving DecidableEq, Repr

/-- `_generate_report`. -/
def generateReport (startUrl : String) (outDir : PPath) (st : DState) : Report :=
  { startUrl := startUrl
    baseDomain := get_domain_from_url startUrl
    pagesDownloaded := st.stats.pages
    cssFiles := st.stats.css
    jsFiles := st.stats.js
    images := st.stats.images
    fonts := st.stats.fonts
    otherFiles := st.stats.other
    totalFiles := st.stats.css + st.stats.js + st.stats.images +
      st.stats.fonts + st.stats.other
    totalSizeBytes := st.stats.totalSize
    visitedUrls := st.visitedUrls
    failedDownloads := st.failedDownloads
    outputDirectory := outDir }

/-! ## Fixtures for concrete witnesses -/

/-- Fixture configuration: the `config.get` defaults, output directory `/o`. -/
def cfgFix : Config := ⟨3, 50, false, ⟨true, ["o"]⟩⟩

/-- Fixture: every resource fetch fails while writing the bytes to disk. -/
def siteWriteFail : Site :=
  { render := fun _ => RenderResult.noContent
    fetch := fun _ => FetchOutcome.writeError "disk full"
    cssRaw := fun _ => []
    dataUri := fun _ => DataResult.invalid }

/-- Fixture: every resource fetch yields HTTP 404. -/
def site404 : Site :=
  { render := fun _ => RenderResult.noContent
    fetch := fun _ =>
      FetchOutcome.httpError "404 Client Error: Not Found for url: http://h/a.png"
    cssRaw := fun _ => []
    dataUri := fun _ => DataResult.invalid }

/-- Fixture: the rendering engine produces no markup for any page
(`_get_page_content_with_retry` returns `None`). -/
def siteRenderNone : Site :=
  { render := fun _ => RenderResult.noContent
    fetch := fun _ => FetchOutcome.success 1
    cssRaw := fun _ => []
    dataUri := fun _ => DataResult.invalid }

/-- Fixture: rendering any page raises. -/
def siteRenderExn : Site :=
  { render := fun _ => RenderResult.exn "net::ERR_FAILED"
    fetch := fun _ => FetchOutcome.success 1
    cssRaw := fun _ => []
    dataUri := fun _ => DataResult.invalid }

/-- Fixture: every page renders fine with two outbound links and no
resources. -/
def siteLinks : Site :=
  { render := fun _ => RenderResult.ok [] ["a.html", "b.html"]
    fetch := fun _ => FetchOutcome.success 3
    cssRaw := fun _ => []
    dataUri := fun _ => DataResult.invalid }

/-- Fixture: one resource URL fails with a network timeout, the others
succeed. -/
def siteIso : Site :=
  { render := fun _ => RenderResult.noContent
    fetch := fun u =>
      if u == "http://h/bad.js" then FetchOutcome.requestError "timeout"
      else FetchOutcome.success 5
    cssRaw := fun _ => []
    dataUri := fun _ => DataResult.invalid }

/-- Fixture configuration with `max_depth = 0` and `max_pages = 2`. -/
def cfgD0 : Config := ⟨0, 2, false, ⟨true, ["o"]⟩⟩

/-- Fixture state with two URLs already visited. -/
def stTwoVisited : DState :=
  { initState with visitedUrls := ["http://h/a", "http://h/b"] }

/-- Fixture state with one URL already downloaded. -/
def stOneDownloaded : DState :=
  { initState with downloadedFiles := ["http://h/a.png"] }

/-- Fixture call sequence referencing the same URL twice. -/
def callsFix : List (String × RType × Option String) :=
  [("http://h/a.png", RType.images, none),
   ("http://h/a.png", RType.images, some "http://h/")]

/-! ## Resource download invariants

`FetchInv` is the dedup invariant: the fetch log has no duplicates and
every fetched URL was first recorded in `downloaded_files`.
`ResourceStep s t` collects what one resource-download step guarantees:
the traversal-owned fields are untouched, the resource-owned logs only
grow, and `FetchInv` is preserved. -/

def FetchInv (st : DState) : Prop :=
  st.fetchLog.Nodup ∧ ∀ u ∈ st.fetchLog, u ∈ st.downloadedFiles

structure ResourceStep (s t : DState) : Prop where
  visited : t.visitedUrls = s.visitedUrls
  vlog : t.visitLog = s.visitLog
  saved : t.savedPages = s.savedPages
  pages : t.stats.pages = s.stats.pages
  dl : s.downloadedFiles <+: t.downloadedFiles
  fl : s.fetchLog <+: t.fetchLog
  fails : s.failedDownloads <+: t.failedDownloads
  clog : s.cssPassLog <+: t.cssPassLog
  finv : FetchInv s → FetchInv t

/-- What one (sub)crawl step preserves/guarantees: `visited_urls` is
append-only, the `maxPages` bound and the `maxDepth` bound on logged
visits are preserved, the fetch dedup invariant is preserved, the pages
counter stays in sync with the ghost `savedPages` log, and saved pages all
rendered successfully. -/
structure CrawlPres (site : Site) (cfg : Config) (s t : DState) : Prop where
  visited : s.visitedUrls <+: t.visitedUrls
  bound : s.visitedUrls.length ≤ cfg.maxPages → t.visitedUrls.length ≤ cfg.maxPages
  depths : (∀ p ∈ s.visitLog, p.2 ≤ cfg.maxDepth) → ∀ p ∈ t.visitLog, p.2 ≤ cfg.maxDepth
  finv : FetchInv s → FetchInv t
  pagesEq : s.stats.pages = s.savedPages.length → t.stats.pages = t.savedPages.length
  savedOk : (∀ u ∈ s.savedPages, (site.render u).isOk = true) →
    ∀ u ∈ t.savedPages, (site.render u).isOk = true

theorem resourceStep_refl (s : DState) : ResourceStep s s :=
  ⟨rfl, rfl, rfl, rfl, List.prefix_refl _, List.prefix_refl _,
   List.prefix_refl _, List.prefix_refl _, id⟩

theorem resourceStep_trans {a b c : DState}
    (h1 : ResourceStep a b) (h2 : ResourceStep b c) : ResourceStep a c :=
  ⟨h2.visited.trans h1.visited, h2.vlog.trans h1.vlog, h2.saved.trans h1.saved,
   h2.pages.trans h1.pages, h1.dl.trans h2.dl, h1.fl.trans h2.fl,
   h1.fails.trans h2.fails, h1.clog.trans h2.clog, fun h => h2.finv (h1.finv h)⟩

/-- Folding a step that respects a reflexive transitive relation respects
it. -/
theorem foldlRel {α : Type} (R : DState → DState → Prop)
    (hrefl : ∀ s, R s s)
    (htrans : ∀ {a b c : DState}, R a b → R b c → R a c)
    (f : DState → α → DState) (hf : ∀ s a, R s (f s a)) :
    ∀ (l : List α) (s : DState), R s (l.foldl f s)
  | [], s => hrefl s
  | a :: l, s => htrans (hf s a) (foldlRel R hrefl htrans f hf l (f s a))

theorem Stats.bump_pages (s : Stats) (rt : RType) (n : Nat) :
    (s.bump rt n).pages = s.pages := by
  cases rt <;> rfl

theorem markFetched_step (st : DState) (url : String)
    (h : url ∉ st.downloadedFiles) : ResourceStep st (markFetched st url) := by
  refine ⟨rfl, rfl, rfl, rfl, List.prefix_append _ _, List.prefix_append _ _,
    List.prefix_refl _, List.prefix_refl _, ?_⟩
  rintro ⟨nd, sub⟩
  have hnl : url ∉ st.fetchLog := fun hm => h (sub url hm)
  constructor
  · show (st.fetchLog ++ [url]).Nodup
    simp [List.nodup_append, nd, hnl]
  · intro u hu
    rcases List.mem_append.mp hu with h1 | h1
    · exact List.mem_append_left _ (sub u h1)
    · exact List.mem_append_right _ h1

theorem addFail_step (st : DState) (r : FailRec) :
    ResourceStep st (addFail st r) :=
  ⟨rfl, rfl, rfl, rfl, List.prefix_refl _, List.prefix_refl _,
   List.prefix_append _ _, List.prefix_refl _, id⟩

theorem registerSuccess_step (cfg : Config) (st : DState) (url : String)
    (rt : RType) (size : Nat) :
    ResourceStep st (registerSuccess cfg st url rt size) :=
  ⟨rfl, rfl, rfl, Stats.bump_pages _ _ _, List.prefix_refl _, List.prefix_refl _,
   List.prefix_refl _, List.prefix_refl _, id⟩

theorem downloadDataUri_step (site : Site) (cfg : Config) (s : DState)
    (url : String) (rt : RType) :
    ResourceStep s (downloadDataUri site cfg s url rt) := by
  unfold downloadDataUri
  split
  · exact ⟨rfl, rfl, rfl, Stats.bump_pages _ _ _, List.prefix_refl _,
      List.prefix_refl _, List.prefix_refl _, List.prefix_refl _, id⟩
  · exact resourceStep_refl s
  · exact addFail_step s _

theorem downloadResourceBody_step (site : Site) (cfg : Config)
    (cssCont : DState → String → DState)
    (hc : ∀ s u, ResourceStep s (cssCont s u))
    (st : DState) (url : String) (rt : RType) :
    ResourceStep st (downloadResourceBody site cfg cssCont st url rt) := by
  unfold downloadResourceBody
  split
  next hm => exact resourceStep_refl st
  next hm =>
    have h1 := markFetched_step st url hm
    split
    next hd =>
      exact resourceStep_trans h1 (downloadDataUri_step site cfg (markFetched st url) url rt)
    next hd =>
      split
      next size hfe =>
        split
        next hcss =>
          exact resourceStep_trans h1
            (resourceStep_trans (registerSuccess_step cfg (markFetched st url) url rt size)
              (hc _ _))
        next hcss =>
          exact resourceStep_trans h1 (registerSuccess_step cfg (markFetched st url) url rt size)
      next msg hfe =>
        split
        next h404 => exact resourceStep_trans h1 (addFail_step (markFetched st url) _)
        next h404 => exact resourceStep_trans h1 (addFail_step (markFetched st url) _)
      next msg hfe => exact resourceStep_trans h1 (addFail_step (markFetched st url) _)
      next msg hfe => exact resourceStep_trans h1 (addFail_step (markFetched st url) _)

theorem downloadResourceNone_step (site : Site) (cfg : Config)
    (st : DState) (url : String) (rt : RType) :
    ResourceStep st (downloadResourceNone site cfg st url rt) :=
  downloadResourceBody_step site cfg _ (fun s _ => resourceStep_refl s) st url rt

theorem processCssResources_step (site : Site) (cfg : Config) (st : DState)
    (u : String) : ResourceStep st (processCssResources site cfg st u) := by
  unfold processCssResources
  refine resourceStep_trans
    (b := { st with cssPassLog := st.cssPassLog ++ [u] }) ?_ ?_
  · exact ⟨rfl, rfl, rfl, rfl, List.prefix_refl _, List.prefix_refl _,
      List.prefix_refl _, List.prefix_append _ _, id⟩
  · exact foldlRel ResourceStep resourceStep_refl resourceStep_trans _
      (fun s a => downloadResourceNone_step site cfg s a (classifyExt a)) _ _

theorem downloadResourceSome_step (site : Site) (cfg : Config)
    (st : DState) (url : String) (rt : RType) :
    ResourceStep st (downloadResourceSome site cfg st url rt) :=
  downloadResourceBody_step site cfg _
    (fun s u => processCssResources_step site cfg s u) st url rt

theorem downloadResource_step (site : Site) (cfg : Config) (st : DState)
    (url : String) (rt : RType) (b : Option String) :
    ResourceStep st (downloadResource site cfg st url rt b) := by
  unfold downloadResource
  split
  · exact downloadResourceSome_step site cfg st url rt
  · exact downloadResourceNone_step site cfg st url rt

theorem downloadPageResources_step (site : Site) (cfg : Config) (st : DState)
    (pageUrl : String) (tasks : List (String × RType)) :
    ResourceStep st (downloadPageResources site cfg st pageUrl tasks) := by
  unfold downloadPageResources
  exact foldlRel ResourceStep resourceStep_refl resourceStep_trans _
    (fun s t => downloadResource_step site cfg s t.1 t.2 (some pageUrl)) tasks st

theorem runCalls_step (site : Site) (cfg : Config) (st : DState)
    (calls : List (String × RType × Option String)) :
    ResourceStep st (runCalls site cfg st calls) := by
  unfold runCalls
  exact foldlRel ResourceStep resourceStep_refl resourceStep_trans _
    (fun s c => downloadResource_step site cfg s c.1 c.2.1 c.2.2) calls st

/-! ## Exact characterizations of `_download_resource` -/

/-- A URL already in `downloaded_files` is skipped without any effect. -/
theorem downloadResourceBody_mem (site : Site) (cfg : Config)
    (cssCont : DState → String → DState) (st : DState) (url : String) (rt : RType)
    (h : url ∈ st.downloadedFiles) :
    downloadResourceBody site cfg cssCont st url rt = st := by
  unfold downloadResourceBody
  rw [if_pos h]

theorem downloadResource_mem (site : Site) (cfg : Config) (st : DState)
    (url : String) (rt : RType) (b : Option String)
    (h : url ∈ st.downloadedFiles) :
    downloadResource site cfg st url rt b = st := by
  unfold downloadResource
  split
  · exact downloadResourceBody_mem site cfg _ st url rt h
  · exact downloadResourceBody_mem site cfg _ st url rt h

/-- A stylesheet with no extractable `url()` references gets an empty
second pass: only the ghost log records it. -/
theorem processCssResources_of_empty (site : Site) (cfg : Config) (st : DState)
    (u : String) (h : parseCssUrls (site.cssRaw u) u = []) :
    processCssResources site cfg st u =
      { st with cssPassLog := st.cssPassLog ++ [u] } := by
  unfold processCssResources
  rw [h]
  rfl

theorem downloadResourceBody_success (site : Site) (cfg : Config)
    (cssCont : DState → String → DState) (st : DState) (url : String)
    (rt : RType) (size : Nat)
    (hmem : url ∉ st.downloadedFiles) (hdata : strStartsWith url "data:" = false)
    (hf : site.fetch url = FetchOutcome.success size) :
    downloadResourceBody site cfg cssCont st url rt =
      if rt = RType.css then
        cssCont (registerSuccess cfg (markFetched st url) url rt size) url
      else registerSuccess cfg (markFetched st url) url rt size := by
  unfold downloadResourceBody
  rw [if_neg hmem, if_neg (by simp [hdata]), hf]

/-- Successful fetch of a fresh non-data URL whose stored stylesheet (if
any) yields no `url()` references: the URL is marked, statistics and the
registry are updated, and for a stylesheet with truthy `base_url` the
second pass is logged — nothing else changes. -/
theorem downloadResource_success_eq (site : Site) (cfg : Config) (st : DState)
    (url : String) (rt : RType) (b : Option String) (size : Nat)
    (hmem : url ∉ st.downloadedFiles) (hdata : strStartsWith url "data:" = false)
    (hf : site.fetch url = FetchOutcome.success size)
    (hcss : parseCssUrls (site.cssRaw url) url = []) :
    downloadResource site cfg st url rt b =
      if rt = RType.css ∧ baseTruthy b = true then
        { registerSuccess cfg (markFetched st url) url rt size with
          cssPassLog := st.cssPassLog ++ [url] }
      else registerSuccess cfg (markFetched st url) url rt size := by
  unfold downloadResource
  by_cases hb : baseTruthy b = true
  · rw [if_pos hb]
    unfold downloadResourceSome
    rw [downloadResourceBody_success site cfg _ st url rt size hmem hdata hf]
    by_cases hcssrt : rt = RType.css
    · rw [if_pos hcssrt, if_pos ⟨hcssrt, hb⟩,
        processCssResources_of_empty site cfg _ url hcss]
      rfl
    · rw [if_neg hcssrt, if_neg (by simp [hcssrt])]
  · rw [if_neg hb]
    unfold downloadResourceNone
    rw [downloadResourceBody_success site cfg _ st url rt size hmem hdata hf]
    by_cases hcssrt : rt = RType.css
    · rw [if_pos hcssrt, if_neg (by simp [hb])]
    · rw [if_neg hcssrt, if_neg (by simp [hcssrt])]

/-- Any fetch failure on a fresh non-data URL appends exactly one record
for that URL and performs no other update beyond marking the URL. -/
theorem downloadResourceBody_failure (site : Site) (cfg : Config)
    (cssCont : DState → String → DState) (st : DState) (url : String) (rt : RType)
    (hmem : url ∉ st.downloadedFiles) (hdata : strStartsWith url "data:" = false)
    (hfail : (site.fetch url).isSuccess = false) :
    ∃ r : FailRec, r.url = url ∧
      downloadResourceBody site cfg cssCont st url rt =
        addFail (markFetched st url) r := by
  cases hfe : site.fetch url with
  | success size => rw [hfe] at hfail; simp [FetchOutcome.isSuccess] at hfail
  | httpError msg =>
    by_cases h404 : strContains msg "404" = true
    · exact ⟨⟨url, some rt, "404 Not Found", some "info"⟩, rfl, by
        simp [downloadResourceBody, hmem, hdata, hfe, h404]⟩
    · exact ⟨⟨url, some rt, msg, some "warning"⟩, rfl, by
        simp [downloadResourceBody, hmem, hdata, hfe, h404]⟩
  | requestError msg =>
    exact ⟨⟨url, some rt, msg, some "warning"⟩, rfl, by
      simp [downloadResourceBody, hmem, hdata, hfe]⟩
  | writeError msg =>
    exact ⟨⟨url, some rt, msg, some "warning"⟩, rfl, by
      simp [downloadResourceBody, hmem, hdata, hfe]⟩

theorem downloadResource_failure_eq (site : Site) (cfg : Config) (st : DState)
    (url : String) (rt : RType) (b : Option String)
    (hmem : url ∉ st.downloadedFiles) (hdata : strStartsWith url "data:" = false)
    (hfail : (site.fetch url).isSuccess = false) :
    ∃ r : FailRec, r.url = url ∧
      downloadResource site cfg st url rt b = addFail (markFetched st url) r := by
  unfold downloadResource
  split
  · exact downloadResourceBody_failure site cfg _ st url rt hmem hdata hfail
  · exact downloadResourceBody_failure site cfg _ st url rt hmem hdata hfail

theorem isSuccess_exists {o : FetchOutcome} (h : o.isSuccess = true) :
    ∃ n, o = FetchOutcome.success n := by
  cases o with
  | success n => exact ⟨n, rfl⟩
  | httpError m => simp [FetchOutcome.isSuccess] at h
  | requestError m => simp [FetchOutcome.isSuccess] at h
  | writeError m => simp [FetchOutcome.isSuccess] at h

/-! ## C5 -/

/-- C5 counterexample: a disk-write failure (`except Exception` branch of
`_download_resource`) is recorded with severity `'warning'`, not
`'error'` — no record in `failed_downloads` ever carries severity
`'error'` on this input, so the claim that write failures are recorded
with severity `'error'` is false. -/
theorem C5_counterexample :
    (downloadResource siteWriteFail cfgFix initState "http://h/a.png" RType.images
        (some "http://h/")).failedDownloads =
      [⟨"http://h/a.png", some RType.images, "disk full", some "warning"⟩] ∧
    ∀ r ∈ (downloadResource siteWriteFail cfgFix initState "http://h/a.png" RType.images
        (some "http://h/")).failedDownloads, r.severity ≠ some "error" := by
  decide

/-- C5 (amended): whenever writing a fetched resource's bytes to disk
fails, a record for that URL is appended to `failed_downloads` — but with
severity `'warning'` (the failure is caught by the generic
`except Exception` branch); the resource is considered failed, the
statistics are not updated, and the crawl continues. -/
theorem C5_write_failure_warning (site : Site) (cfg : Config) (st : DState)
    (url : String) (rt : RType) (b : Option String) (msg : String)
    (hmem : url ∉ st.downloadedFiles) (hdata : strStartsWith url "data:" = false)
    (hf : site.fetch url = FetchOutcome.writeError msg) :
    downloadResource site cfg st url rt b =
      { st with
        downloadedFiles := st.downloadedFiles ++ [url]
        fetchLog := st.fetchLog ++ [url]
        failedDownloads := st.failedDownloads ++ [⟨url, some rt, msg, some "warning"⟩] } := by
  unfold downloadResource
  split <;>
    simp [downloadResourceSome, downloadResourceNone, downloadResourceBody,
      hmem, hdata, hf, markFetched, addFail]

/-- Witness for C5 (amended) at concrete inputs. -/
theorem C5_write_failure_warning_witness :
    downloadResource siteWriteFail cfgFix initState "http://h/a.png" RType.images
        (some "http://h/") =
      { initState with
        downloadedFiles := ["http://h/a.png"]
        fetchLog := ["http://h/a.png"]
        failedDownloads :=
          [⟨"http://h/a.png", some RType.images, "disk full", some "warning"⟩] } :=
  C5_write_failure_warning siteWriteFail cfgFix initState "http://h/a.png" RType.images
    (some "http://h/") "disk full" (by decide) (by decide) (by decide)

/-! ## C6 -/

/-- C6: an HTTP 404 appends a record with the URL, its resource type, the
message `'404 Not Found'` and severity `'info'`, and changes nothing else —
in particular neither the per-type counter nor `total_size` (the whole
`stats` field is untouched in the resulting state). -/
theorem C6_http_404_info (site : Site) (cfg : Config) (st : DState)
    (url : String) (rt : RType) (b : Option String) (msg : String)
    (hmem : url ∉ st.downloadedFiles) (hdata : strStartsWith url "data:" = false)
    (hf : site.fetch url = FetchOutcome.httpError msg)
    (h404 : strContains msg "404" = true) :
    downloadResource site cfg st url rt b =
      { st with
        downloadedFiles := st.downloadedFiles ++ [url]
        fetchLog := st.fetchLog ++ [url]
        failedDownloads :=
          st.failedDownloads ++ [⟨url, some rt, "404 Not Found", some "info"⟩] } := by
  unfold downloadResource
  split <;>
    simp [downloadResourceSome, downloadResourceNone, downloadResourceBody,
      hmem, hdata, hf, h404, markFetched, addFail]

/-- Witness for C6 at concrete inputs. -/
theorem C6_http_404_info_witness :
    downloadResource site404 cfgFix initState "http://h/a.png" RType.images
        (some "http://h/") =
      { initState with
        downloadedFiles := ["http://h/a.png"]
        fetchLog := ["http://h/a.png"]
        failedDownloads :=
          [⟨"http://h/a.png", some RType.images, "404 Not Found", some "info"⟩] } :=
  C6_http_404_info site404 cfgFix initState "http://h/a.png" RType.images
    (some "http://h/") "404 Client Error: Not Found for url: http://h/a.png"
    (by decide) (by decide) (by decide) (by decide)

/-! ## C8 -/

theorem downloadDataUri_cssPassLog (site : Site) (cfg : Config) (s : DState)
    (url : String) (rt : RType) :
    (downloadDataUri site cfg s url rt).cssPassLog = s.cssPassLog := by
  unfold downloadDataUri
  split <;> rfl

/-- `_download_resource` with `base_url=None` never runs a second
stylesheet pass. -/
theorem downloadResourceNone_cssPassLog (site : Site) (cfg : Config)
    (st : DState) (url : String) (rt : RType) :
    (downloadResourceNone site cfg st url rt).cssPassLog = st.cssPassLog := by
  unfold downloadResourceNone downloadResourceBody
  split
  next => rfl
  next hm =>
    split
    next => exact downloadDataUri_cssPassLog site cfg _ url rt
    next =>
      split
      next size hfe => split <;> rfl
      next msg hfe => split <;> rfl
      next msg hfe => rfl
      next msg hfe => rfl

theorem foldlNone_cssPassLog (site : Site) (cfg : Config) :
    ∀ (l : List String) (st : DState),
      (l.foldl (fun s u => downloadResourceNone site cfg s u (classifyExt u)) st).cssPassLog =
        st.cssPassLog
  | [], _ => rfl
  | u :: l, st => by
    rw [List.foldl_cons, foldlNone_cssPassLog site cfg l,
      downloadResourceNone_cssPassLog]

/-- `_process_css_resources` logs exactly the stylesheet it was given:
the downloads it dispatches (all with `base_url=None`) contribute no
further entries. -/
theorem processCssResources_cssPassLog (site : Site) (cfg : Config)
    (st : DState) (u : String) :
    (processCssResources site cfg st u).cssPassLog = st.cssPassLog ++ [u] := by
  unfold processCssResources
  rw [foldlNone_cssPassLog]

theorem downloadResourceSome_cssPassLog_le (site : Site) (cfg : Config)
    (st : DState) (url : String) (rt : RType) :
    (downloadResourceSome site cfg st url rt).cssPassLog.length ≤
      st.cssPassLog.length + 1 := by
  unfold downloadResourceSome downloadResourceBody
  split
  next => exact Nat.le_succ _
  next hm =>
    split
    next =>
      rw [downloadDataUri_cssPassLog]
      exact Nat.le_succ _
    next =>
      split
      next size hfe =>
        split
        next hcss =>
          rw [processCssResources_cssPassLog]
          simp
          exact Nat.le_of_eq rfl
        next hcss => exact Nat.le_succ _
      next msg hfe => split <;> exact Nat.le_succ _
      next msg hfe => exact Nat.le_succ _
      next msg hfe => exact Nat.le_succ _

/-- C8: stylesheet resolution is bounded to one level.  (i) A download
dispatched with `base_url=None` — which is how `_process_css_resources`
dispatches every `url()` reference it extracts — never runs a second
resolution pass (the ghost `cssPassLog` is unchanged).  (ii) Any single
`_download_resource` call performs at most one second pass (the
stylesheet's own).  (iii) The extension classification used for a
stylesheet's `url()` references never yields `'css'`, so those downloads
are never even typed as stylesheets. -/
theorem C8_css_one_level (site : Site) (cfg : Config) :
    (∀ st url rt, (downloadResourceNone site cfg st url rt).cssPassLog = st.cssPassLog) ∧
    (∀ st url rt b,
      (downloadResource site cfg st url rt b).cssPassLog.length ≤
        st.cssPassLog.length + 1) ∧
    (∀ u, classifyExt u ≠ RType.css) := by
  refine ⟨fun st url rt => downloadResourceNone_cssPassLog site cfg st url rt,
    fun st url rt b => ?_, fun u => ?_⟩
  · unfold downloadResource
    split
    · exact downloadResourceSome_cssPassLog_le site cfg st url rt
    · rw [downloadResourceNone_cssPassLog]
      exact Nat.le_succ _
  · unfold classifyExt
    split
    · decide
    · split <;> decide

/-! ## C9 -/

theorem downloadPageResources_cons (site : Site) (cfg : Config) (st : DState)
    (pageUrl : String) (u : String) (rt : RType) (tasks : List (String × RType)) :
    downloadPageResources site cfg st pageUrl ((u, rt) :: tasks) =
      downloadPageResources site cfg
        (downloadResource site cfg st u rt (some pageUrl)) pageUrl tasks := rfl

/-- A batch of fresh, pairwise-distinct, non-data tasks that all fetch
successfully (and whose stylesheets reference nothing further) registers
every task and records no failure. -/
theorem batch_ok_fields (site : Site) (cfg : Config) (pageUrl : String) :
    ∀ (tasks : List (String × RType)) (st : DState),
      (∀ t ∈ tasks, t.1 ∉ st.downloadedFiles) →
      ((tasks.map Prod.fst).Nodup) →
      (∀ t ∈ tasks, strStartsWith t.1 "data:" = false) →
      (∀ t ∈ tasks, (site.fetch t.1).isSuccess = true) →
      (∀ t ∈ tasks, parseCssUrls (site.cssRaw t.1) t.1 = []) →
      (downloadPageResources site cfg st pageUrl tasks).failedDownloads =
          st.failedDownloads ∧
        (downloadPageResources site cfg st pageUrl tasks).downloadedFiles =
          st.downloadedFiles ++ tasks.map Prod.fst ∧
        (downloadPageResources site cfg st pageUrl tasks).fetchLog =
          st.fetchLog ++ tasks.map Prod.fst ∧
        (downloadPageResources site cfg st pageUrl tasks).resourceMap =
          st.resourceMap ++ tasks.map (fun t => (t.1, url_to_filename t.1 cfg.outputDir))
  | [], st, _, _, _, _, _ => by simp [downloadPageResources]
  | (u, rt) :: tasks, st, hfresh, hnodup, hdata, hok, hcss => by
    rw [List.map_cons] at hnodup
    have hu : u ∉ st.downloadedFiles := hfresh (u, rt) (List.mem_cons_self _ _)
    obtain ⟨size, hsz⟩ := isSuccess_exists (hok (u, rt) (List.mem_cons_self _ _))
    have hstep := downloadResource_success_eq site cfg st u rt (some pageUrl) size hu
      (hdata (u, rt) (List.mem_cons_self _ _)) hsz (hcss (u, rt) (List.mem_cons_self _ _))
    set st' := downloadResource site cfg st u rt (some pageUrl) with hst'
    have hfail2 : st'.failedDownloads = st.failedDownloads := by
      rw [hstep]; split <;> rfl
    have hdl2 : st'.downloadedFiles = st.downloadedFiles ++ [u] := by
      rw [hstep]; split <;> rfl
    have hfl2 : st'.fetchLog = st.fetchLog ++ [u] := by
      rw [hstep]; split <;> rfl
    have hrm2 : st'.resourceMap =
        st.resourceMap ++ [(u, url_to_filename u cfg.outputDir)] := by
      rw [hstep]; split <;> rfl
    have hnotin : u ∉ tasks.map Prod.fst := (List.nodup_cons.mp hnodup).1
    have ih := batch_ok_fields site cfg pageUrl tasks st'
      (fun t ht => by
        rw [hdl2]
        intro hmem
        rcases List.mem_append.mp hmem with h1 | h1
        · exact hfresh t (List.mem_cons_of_mem _ ht) h1
        · exact hnotin (List.mem_singleton.mp h1 ▸ List.mem_map_of_mem Prod.fst ht))
      (List.nodup_cons.mp hnodup).2
      (fun t ht => hdata t (List.mem_cons_of_mem _ ht))
      (fun t ht => hok t (List.mem_cons_of_mem _ ht))
      (fun t ht => hcss t (List.mem_cons_of_mem _ ht))
    rw [downloadPageResources_cons, ← hst']
    refine ⟨?_, ?_, ?_, ?_⟩
    · rw [ih.1, hfail2]
    · rw [ih.2.1, hdl2]
      simp
    · rw [ih.2.2.1, hfl2]
      simp
    · rw [ih.2.2.2, hrm2]
      simp

/-- C9: in a page's batch of download tasks, one failing fetch neither
aborts nor affects the siblings: every other task is still fetched and
registered in the resource map, and the failing one contributes exactly
one record to `failed_downloads` (the whole batch appends exactly that
record).  Stated for a batch of fresh, distinct, non-data URLs where
exactly the middle task's fetch fails and the sibling stylesheets carry
no further `url()` references. -/
theorem C9_failure_isolation (site : Site) (cfg : Config) (pageUrl : String)
    (st : DState) (pre post : List (String × RType)) (badUrl : String) (badRt : RType)
    (hfresh : ∀ t ∈ pre ++ (badUrl, badRt) :: post, t.1 ∉ st.downloadedFiles)
    (hnodup : ((pre ++ (badUrl, badRt) :: post).map Prod.fst).Nodup)
    (hdata : ∀ t ∈ pre ++ (badUrl, badRt) :: post, strStartsWith t.1 "data:" = false)
    (hok : ∀ t ∈ pre ++ post, (site.fetch t.1).isSuccess = true)
    (hbad : (site.fetch badUrl).isSuccess = false)
    (hcss : ∀ t ∈ pre ++ post, parseCssUrls (site.cssRaw t.1) t.1 = []) :
    ∃ r : FailRec, r.url = badUrl ∧
      (downloadPageResources site cfg st pageUrl
          (pre ++ (badUrl, badRt) :: post)).failedDownloads =
        st.failedDownloads ++ [r] ∧
      ∀ t ∈ pre ++ post,
        t.1 ∈ (downloadPageResources site cfg st pageUrl
            (pre ++ (badUrl, badRt) :: post)).resourceMap.map Prod.fst ∧
        t.1 ∈ (downloadPageResources site cfg st pageUrl
            (pre ++ (badUrl, badRt) :: post)).fetchLog := by
  rw [List.map_append, List.map_cons] at hnodup
  obtain ⟨hndA, hndUB, hdisj⟩ := List.nodup_append.mp hnodup
  obtain ⟨hu_notB, hndB⟩ := List.nodup_cons.mp hndUB
  have hu_notA : badUrl ∉ pre.map Prod.fst :=
    fun hA => hdisj hA (List.mem_cons_self _ _)
  -- split the fold at the failing task
  have hsplit : downloadPageResources site cfg st pageUrl
      (pre ++ (badUrl, badRt) :: post) =
      downloadPageResources site cfg
        (downloadResource site cfg (downloadPageResources site cfg st pageUrl pre)
          badUrl badRt (some pageUrl)) pageUrl post := by
    unfold downloadPageResources
    rw [List.foldl_append, List.foldl_cons]
  -- the prefix batch
  have hpre := batch_ok_fields site cfg pageUrl pre st
    (fun t ht => hfresh t (List.mem_append_left _ ht)) hndA
    (fun t ht => hdata t (List.mem_append_left _ ht))
    (fun t ht => hok t (List.mem_append_left _ ht))
    (fun t ht => hcss t (List.mem_append_left _ ht))
  set st1 := downloadPageResources site cfg st pageUrl pre with hst1
  -- the failing task
  have hbadmem : badUrl ∉ st1.downloadedFiles := by
    rw [hpre.2.1]
    intro hmem
    rcases List.mem_append.mp hmem with h1 | h1
    · exact hfresh (badUrl, badRt) (List.mem_append_right _ (List.mem_cons_self _ _)) h1
    · exact hu_notA h1
  obtain ⟨r, hrurl, hbadeq⟩ := downloadResource_failure_eq site cfg st1 badUrl badRt
    (some pageUrl) hbadmem
    (hdata (badUrl, badRt) (List.mem_append_right _ (List.mem_cons_self _ _))) hbad
  set st2 := downloadResource site cfg st1 badUrl badRt (some pageUrl) with hst2
  have hfail2 : st2.failedDownloads = st1.failedDownloads ++ [r] := by
    rw [hbadeq]; rfl
  have hdl2 : st2.downloadedFiles = st1.downloadedFiles ++ [badUrl] := by
    rw [hbadeq]; rfl
  have hfl2 : st2.fetchLog = st1.fetchLog ++ [badUrl] := by
    rw [hbadeq]; rfl
  have hrm2 : st2.resourceMap = st1.resourceMap := by
    rw [hbadeq]; rfl
  -- the suffix batch
  have hpost := batch_ok_fields site cfg pageUrl post st2
    (fun t ht => by
      rw [hdl2, hpre.2.1]
      intro hmem
      have htB : t.1 ∈ post.map Prod.fst := List.mem_map_of_mem Prod.fst ht
      rcases List.mem_append.mp hmem with h1 | h1
      · rcases List.mem_append.mp h1 with h2 | h2
        · exact hfresh t (List.mem_append_right _ (List.mem_cons_of_mem _ ht)) h2
        · exact hdisj h2 (List.mem_cons_of_mem _ htB)
      · exact hu_notB (List.mem_singleton.mp h1 ▸ htB))
    hndB
    (fun t ht => hdata t (List.mem_append_right _ (List.mem_cons_of_mem _ ht)))
    (fun t ht => hok t (List.mem_append_right _ ht))
    (fun t ht => hcss t (List.mem_append_right _ ht))
  refine ⟨r, hrurl, ?_, ?_⟩
  · rw [hsplit, hpost.1, hfail2, hpre.1]
  · intro t ht
    rw [hsplit]
    constructor
    · rw [hpost.2.2.2, hrm2, hpre.2.2.2]
      simp only [List.map_append, List.map_map]
      rcases List.mem_append.mp ht with h1 | h1
      · exact List.mem_append_left _
          (List.mem_append_right _ (List.mem_map.mpr ⟨t, h1, rfl⟩))
      · exact List.mem_append_right _ (List.mem_map.mpr ⟨t, h1, rfl⟩)
    · rw [hpost.2.2.1, hfl2, hpre.2.2.1]
      rcases List.mem_append.mp ht with h1 | h1
      · exact List.mem_append_left _
          (List.mem_append_left _
            (List.mem_append_right _ (List.mem_map_of_mem Prod.fst h1)))
      · exact List.mem_append_right _ (List.mem_map_of_mem Prod.fst h1)

/-- Witness for C9 at a concrete three-task batch with the middle task
failing. -/
theorem C9_failure_isolation_witness :
    ∃ r : FailRec, r.url = "http://h/bad.js" ∧
      (downloadPageResources siteIso cfgFix initState "http://h/"
          ([("http://h/a.png", RType.images)] ++ ("http://h/bad.js", RType.js) ::
            [("http://h/c.png", RType.images)])).failedDownloads =
        initState.failedDownloads ++ [r] ∧
      ∀ t ∈ [("http://h/a.png", RType.images)] ++ [("http://h/c.png", RType.images)],
        t.1 ∈ (downloadPageResources siteIso cfgFix initState "http://h/"
            ([("http://h/a.png", RType.images)] ++ ("http://h/bad.js", RType.js) ::
              [("http://h/c.png", RType.images)])).resourceMap.map Prod.fst ∧
        t.1 ∈ (downloadPageResources siteIso cfgFix initState "http://h/"
            ([("http://h/a.png", RType.images)] ++ ("http://h/bad.js", RType.js) ::
              [("http://h/c.png", RType.images)])).fetchLog := by
  refine C9_failure_isolation siteIso cfgFix "http://h/" initState
    [("http://h/a.png", RType.images)] [("http://h/c.png", RType.images)]
    "http://h/bad.js" RType.js ?_ ?_ ?_ ?_ ?_ ?_ <;> decide

/-! ## Crawl invariants -/

theorem crawlPres_refl (site : Site) (cfg : Config) (s : DState) :
    CrawlPres site cfg s s :=
  ⟨List.prefix_refl _, id, id, id, id, id⟩

theorem crawlPres_trans {site : Site} {cfg : Config} {a b c : DState}
    (h1 : CrawlPres site cfg a b) (h2 : CrawlPres site cfg b c) :
    CrawlPres site cfg a c :=
  ⟨h1.visited.trans h2.visited, fun h => h2.bound (h1.bound h),
   fun h => h2.depths (h1.depths h), fun h => h2.finv (h1.finv h),
   fun h => h2.pagesEq (h1.pagesEq h), fun h => h2.savedOk (h1.savedOk h)⟩

/-- A resource-download step touches none of the crawl-owned state. -/
theorem resourceStep_crawlPres {site : Site} {cfg : Config} {s t : DState}
    (h : ResourceStep s t) : CrawlPres site cfg s t := by
  refine ⟨?_, ?_, ?_, h.finv, ?_, ?_⟩
  · rw [h.visited]
  · rw [h.visited]; exact id
  · rw [h.vlog]; exact id
  · rw [h.pages, h.saved]; exact id
  · rw [h.saved]; exact id

theorem markVisited_pres (site : Site) (cfg : Config) (st : DState)
    (url : String) (depth : Nat)
    (hdep : depth ≤ cfg.maxDepth) (hpages : st.visitedUrls.length < cfg.maxPages) :
    CrawlPres site cfg st (markVisited st url depth) := by
  refine ⟨List.prefix_append _ _, fun _ => ?_, fun h p hp => ?_, id, id, id⟩
  · show (st.visitedUrls ++ [url]).length ≤ cfg.maxPages
    simpa using hpages
  · rcases List.mem_append.mp hp with h1 | h1
    · exact h p h1
    · rw [List.mem_singleton.mp h1]
      exact hdep

theorem savePage_pres (site : Site) (cfg : Config) (st : DState) (url : String)
    (hr : (site.render url).isOk = true) :
    CrawlPres site cfg st (savePage cfg st url) := by
  refine ⟨List.prefix_refl _, id, id, id, fun h => ?_, fun h u hu => ?_⟩
  · show st.stats.bumpPages.pages = (st.savedPages ++ [url]).length
    simp [Stats.bumpPages, h]
  · rcases List.mem_append.mp hu with h1 | h1
    · exact h u h1
    · rw [List.mem_singleton.mp h1]
      exact hr

/-- The master preservation lemma for the traversal. -/
theorem downloadRecursiveF_pres (site : Site) (cfg : Config) (startUrl : String) :
    ∀ (fuel : Nat) (url : String) (depth : Nat) (st : DState),
      CrawlPres site cfg st (downloadRecursiveF site cfg startUrl fuel url depth st)
  | 0, url, depth, st => crawlPres_refl site cfg st
  | fuel + 1, url, depth, st => by
    unfold downloadRecursiveF
    split
    next => exact crawlPres_refl site cfg st
    next hdep =>
      split
      next => exact crawlPres_refl site cfg st
      next hvis =>
        split
        next => exact crawlPres_refl site cfg st
        next hpages =>
          split
          next => exact crawlPres_refl site cfg st
          next hdom =>
            have hdep' : depth ≤ cfg.maxDepth := Nat.le_of_not_lt hdep
            have hpages' : st.visitedUrls.length < cfg.maxPages :=
              Nat.lt_of_not_le hpages
            have h1 := markVisited_pres site cfg st url depth hdep' hpages'
            split
            next hr => exact h1
            next msg hr =>
              exact crawlPres_trans h1 (resourceStep_crawlPres (addFail_step _ _))
            next tasks hrefs hr =>
              refine crawlPres_trans h1 (crawlPres_trans
                (savePage_pres site cfg _ url (by rw [hr]; rfl))
                (crawlPres_trans
                  (resourceStep_crawlPres (downloadPageResources_step site cfg _ url tasks))
                  ?_))
              exact foldlRel (CrawlPres site cfg) (crawlPres_refl site cfg)
                crawlPres_trans _
                (fun s l => downloadRecursiveF_pres site cfg startUrl fuel l (depth + 1) s)
                _ _

/-- `CrawlPres` for the source-shaped entry point. -/
theorem downloadRecursive_pres (site : Site) (cfg : Config) (startUrl : String)
    (url : String) (depth : Nat) (st : DState) :
    CrawlPres site cfg st (downloadRecursive site cfg startUrl url depth st) :=
  downloadRecursiveF_pres site cfg startUrl _ url depth st

/-! ## Guard and one-step characterizations of the traversal -/

/-- `depth > max_depth` returns without effect (via the fuel choice, which
is zero exactly on these inputs — the source's first guard). -/
theorem downloadRecursive_depth_guard (site : Site) (cfg : Config) (su : String)
    (url : String) (depth : Nat) (st : DState) (h : cfg.maxDepth < depth) :
    downloadRecursive site cfg su url depth st = st := by
  unfold downloadRecursive
  have hz : cfg.maxDepth + 1 - depth = 0 := by omega
  rw [hz]
  rfl

/-- `len(visited_urls) >= max_pages` returns without effect, whatever the
other guards would say. -/
theorem downloadRecursiveF_pages_guard (site : Site) (cfg : Config) (su : String)
    (fuel : Nat) (url : String) (depth : Nat) (st : DState)
    (h : cfg.maxPages ≤ st.visitedUrls.length) :
    downloadRecursiveF site cfg su fuel url depth st = st := by
  cases fuel with
  | zero => rfl
  | succ n =>
    unfold downloadRecursiveF
    by_cases h1 : cfg.maxDepth < depth
    · rw [if_pos h1]
    · rw [if_neg h1]
      by_cases h2 : url ∈ st.visitedUrls
      · rw [if_pos h2]
      · rw [if_neg h2, if_pos h]

/-- A URL already visited returns without effect. -/
theorem downloadRecursiveF_visited_guard (site : Site) (cfg : Config) (su : String)
    (fuel : Nat) (url : String) (depth : Nat) (st : DState)
    (h : url ∈ st.visitedUrls) :
    downloadRecursiveF site cfg su fuel url depth st = st := by
  cases fuel with
  | zero => rfl
  | succ n =>
    unfold downloadRecursiveF
    by_cases h1 : cfg.maxDepth < depth
    · rw [if_pos h1]
    · rw [if_neg h1, if_pos h]

/-- One step of the traversal when every guard passes. -/
theorem downloadRecursive_step_eq (site : Site) (cfg : Config) (su : String)
    (url : String) (depth : Nat) (st : DState)
    (hdep : depth ≤ cfg.maxDepth) (hvis : url ∉ st.visitedUrls)
    (hpages : st.visitedUrls.length < cfg.maxPages)
    (hdom : (!cfg.followExternalLinks && !(is_same_domain url su)) = false) :
    downloadRecursive site cfg su url depth st =
      match site.render url with
      | .noContent => markVisited st url depth
      | .exn msg => addFail (markVisited st url depth) (pageFailRecord url msg)
      | .ok tasks hrefs =>
        let st3 := downloadPageResources site cfg
          (savePage cfg (markVisited st url depth) url) url tasks
        (extractLinks cfg su st3.visitedUrls url hrefs).foldl
          (fun s l => downloadRecursiveF site cfg su (cfg.maxDepth - depth) l (depth + 1) s)
          st3 := by
  unfold downloadRecursive
  have hf : cfg.maxDepth + 1 - depth = (cfg.maxDepth - depth) + 1 := by omega
  rw [hf, downloadRecursiveF]
  rw [if_neg (by omega), if_neg hvis, if_neg (by omega), if_neg (by simp [hdom])]

/-- With fuel `0` — i.e. `depth > max_depth` — recursing into any link
list is the identity. -/
theorem foldl_fuel_zero (site : Site) (cfg : Config) (su : String) (dep : Nat) :
    ∀ (l : List String) (s : DState),
      l.foldl (fun s l => downloadRecursiveF site cfg su 0 l dep s) s = s
  | [], _ => rfl
  | _ :: l, s => foldl_fuel_zero site cfg su dep l s

/-! ## C4 -/

/-- C4 counterexample: when content retrieval yields no markup for the
very first page (`_get_page_content_with_retry` returns `None`), the crawl
marks the page visited and returns — `failed_downloads` stays empty, so
the claim that every page-level rendering failure appends a FailureRecord
with severity `'error'` is false. -/
theorem C4_counterexample :
    (downloadRecursive siteRenderNone cfgFix "http://h/" "http://h/" 0
        initState).failedDownloads = [] ∧
    (downloadRecursive siteRenderNone cfgFix "http://h/" "http://h/" 0
        initState).visitedUrls = ["http://h/"] := by
  decide

/-- C4 (amended): when rendering a page *raises*, the crawl appends one
FailureRecord for the page's URL with severity `'error'` (or `'info'` when
the message contains `'Incoming markup'`), does not recurse into the
page's links, and returns normally so the remaining pages continue; when
content retrieval returns no markup, the crawl likewise stops at that page
and continues, but records no failure at all. -/
theorem C4_page_failure (site : Site) (cfg : Config) (su : String)
    (url : String) (depth : Nat) (st : DState) (msg : String)
    (hdep : depth ≤ cfg.maxDepth) (hvis : url ∉ st.visitedUrls)
    (hpages : st.visitedUrls.length < cfg.maxPages)
    (hdom : (!cfg.followExternalLinks && !(is_same_domain url su)) = false) :
    (site.render url = RenderResult.exn msg →
      downloadRecursive site cfg su url depth st =
        addFail (markVisited st url depth) (pageFailRecord url msg)) ∧
    (site.render url = RenderResult.noContent →
      downloadRecursive site cfg su url depth st = markVisited st url depth) := by
  constructor <;> intro hr <;>
    rw [downloadRecursive_step_eq site cfg su url depth st hdep hvis hpages hdom, hr]

/-- Witness for C4 (amended) at concrete inputs. -/
theorem C4_page_failure_witness :
    downloadRecursive siteRenderExn cfgFix "http://h/" "http://h/" 0 initState =
      addFail (markVisited initState "http://h/" 0)
        (pageFailRecord "http://h/" "net::ERR_FAILED") :=
  (C4_page_failure siteRenderExn cfgFix "http://h/" "http://h/" 0 initState
    "net::ERR_FAILED" (by decide) (by decide) (by decide) (by decide)).1 (by decide)

/-! ## C2 -/

/-- C2: the crawl bounds.  (i) `|visited_urls| ≤ max_pages` is preserved
through any traversal; (ii) every `(url, depth)` ever added to the visit
log has `depth ≤ max_depth`; (iii) `depth > max_depth` returns without
effect; (iv) `len(visited_urls) ≥ max_pages` returns without effect;
(v) with `max_depth = 0` and room under `max_pages`, a crawl from the
start URL visits exactly the start URL. -/
theorem C2_crawl_bounds (site : Site) (cfg : Config) (su : String) :
    (∀ fuel url depth st, st.visitedUrls.length ≤ cfg.maxPages →
      (downloadRecursiveF site cfg su fuel url depth st).visitedUrls.length ≤ cfg.maxPages) ∧
    (∀ fuel url depth st, (∀ p ∈ st.visitLog, p.2 ≤ cfg.maxDepth) →
      ∀ p ∈ (downloadRecursiveF site cfg su fuel url depth st).visitLog,
        p.2 ≤ cfg.maxDepth) ∧
    (∀ url depth st, cfg.maxDepth < depth →
      downloadRecursive site cfg su url depth st = st) ∧
    (∀ url depth st, cfg.maxPages ≤ st.visitedUrls.length →
      downloadRecursive site cfg su url depth st = st) ∧
    (cfg.maxDepth = 0 → ∀ url, 0 < cfg.maxPages →
      (downloadRecursive site cfg url url 0 initState).visitedUrls = [url]) := by
  refine ⟨fun fuel url depth st h =>
      (downloadRecursiveF_pres site cfg su fuel url depth st).bound h,
    fun fuel url depth st h =>
      (downloadRecursiveF_pres site cfg su fuel url depth st).depths h,
    fun url depth st h => downloadRecursive_depth_guard site cfg su url depth st h,
    fun url depth st h => downloadRecursiveF_pages_guard site cfg su _ url depth st h,
    fun h0 url hp => ?_⟩
  rw [downloadRecursive_step_eq site cfg url url 0 initState (by omega)
    (by intro h; exact absurd h (List.not_mem_nil url))
    (by simpa [initState] using hp)
    (by simp [is_same_domain])]
  cases hr : site.render url with
  | noContent => rfl
  | exn msg => rfl
  | ok tasks hrefs =>
    show ((extractLinks cfg url _ url hrefs).foldl
        (fun s l => downloadRecursiveF site cfg url (cfg.maxDepth - 0) l (0 + 1) s)
        _).visitedUrls = [url]
    rw [h0]
    rw [foldl_fuel_zero site cfg url (0 + 1)]
    rw [(downloadPageResources_step site cfg _ url tasks).visited]
    rfl

/-- Witness for C2 at concrete inputs (`max_depth = 0`, `max_pages = 2`,
a start page with outbound links). -/
theorem C2_crawl_bounds_witness :
    ((downloadRecursiveF siteLinks cfgD0 "http://h/" 5 "http://h/" 0
        initState).visitedUrls.length ≤ cfgD0.maxPages) ∧
    (∀ p ∈ (downloadRecursiveF siteLinks cfgD0 "http://h/" 5 "http://h/" 0
        initState).visitLog, p.2 ≤ cfgD0.maxDepth) ∧
    (downloadRecursive siteLinks cfgD0 "http://h/" "http://h/x" 1 initState = initState) ∧
    (downloadRecursive siteLinks cfgD0 "http://h/" "http://h/" 0 stTwoVisited = stTwoVisited) ∧
    ((downloadRecursive siteLinks cfgD0 "http://h/" "http://h/" 0 initState).visitedUrls =
      ["http://h/"]) :=
  ⟨(C2_crawl_bounds siteLinks cfgD0 "http://h/").1 5 "http://h/" 0 initState (by decide),
   (C2_crawl_bounds siteLinks cfgD0 "http://h/").2.1 5 "http://h/" 0 initState (by decide),
   (C2_crawl_bounds siteLinks cfgD0 "http://h/").2.2.1 "http://h/x" 1 initState (by decide),
   (C2_crawl_bounds siteLinks cfgD0 "http://h/").2.2.2.1 "http://h/" 0 stTwoVisited (by decide),
   (C2_crawl_bounds siteLinks cfgD0 "http://h/").2.2.2.2 (by decide) "http://h/" (by decide)⟩

/-! ## C10 -/

/-- C10: (i) `visited_urls` is append-only through any traversal — a URL
is never removed, so a failed page still counts toward `max_pages`;
(ii) when the guards pass, the URL is in `visited_urls` afterwards — also
in the final report's `visited_urls` — whatever the render outcome, and if
rendering failed (exception or no markup) the pages counter is unchanged;
(iii) the pages counter equals the number of successfully saved pages;
(iv) every saved page rendered successfully. -/
theorem C10_visited_vs_pages (site : Site) (cfg : Config) (su : String) :
    (∀ fuel url depth st,
      st.visitedUrls <+: (downloadRecursiveF site cfg su fuel url depth st).visitedUrls) ∧
    (∀ url depth st, depth ≤ cfg.maxDepth → url ∉ st.visitedUrls →
      st.visitedUrls.length < cfg.maxPages →
      (!cfg.followExternalLinks && !(is_same_domain url su)) = false →
      url ∈ (downloadRecursive site cfg su url depth st).visitedUrls ∧
      url ∈ (generateReport su cfg.outputDir
        (downloadRecursive site cfg su url depth st)).visitedUrls ∧
      ((site.render url = RenderResult.noContent ∨
          (∃ m, site.render url = RenderResult.exn m)) →
        (downloadRecursive site cfg su url depth st).stats.pages = st.stats.pages)) ∧
    (∀ fuel url depth st, st.stats.pages = st.savedPages.length →
      (downloadRecursiveF site cfg su fuel url depth st).stats.pages =
        (downloadRecursiveF site cfg su fuel url depth st).savedPages.length) ∧
    (∀ fuel url depth st, (∀ u ∈ st.savedPages, (site.render u).isOk = true) →
      ∀ u ∈ (downloadRecursiveF site cfg su fuel url depth st).savedPages,
        (site.render u).isOk = true) := by
  refine ⟨fun fuel url depth st =>
      (downloadRecursiveF_pres site cfg su fuel url depth st).visited,
    fun url depth st hdep hvis hpages hdom => ?_,
    fun fuel url depth st h =>
      (downloadRecursiveF_pres site cfg su fuel url depth st).pagesEq h,
    fun fuel url depth st h =>
      (downloadRecursiveF_pres site cfg su fuel url depth st).savedOk h⟩
  have hmem : url ∈ (downloadRecursive site cfg su url depth st).visitedUrls := by
    rw [downloadRecursive_step_eq site cfg su url depth st hdep hvis hpages hdom]
    cases hr : site.render url with
    | noContent => exact List.mem_append_right _ (List.mem_singleton_self url)
    | exn msg => exact List.mem_append_right _ (List.mem_singleton_self url)
    | ok tasks hrefs =>
      have hpre := foldlRel (CrawlPres site cfg) (crawlPres_refl site cfg)
        crawlPres_trans
        (fun s l => downloadRecursiveF site cfg su (cfg.maxDepth - depth) l (depth + 1) s)
        (fun s l =>
          downloadRecursiveF_pres site cfg su (cfg.maxDepth - depth) l (depth + 1) s)
        (extractLinks cfg su (downloadPageResources site cfg
          (savePage cfg (markVisited st url depth) url) url tasks).visitedUrls url hrefs)
        (downloadPageResources site cfg
          (savePage cfg (markVisited st url depth) url) url tasks)
      refine hpre.visited.subset ?_
      rw [(downloadPageResources_step site cfg _ url tasks).visited]
      exact List.mem_append_right _ (List.mem_singleton_self url)
  refine ⟨hmem, hmem, fun hr => ?_⟩
  rw [downloadRecursive_step_eq site cfg su url depth st hdep hvis hpages hdom]
  rcases hr with hr | ⟨m, hr⟩ <;> rw [hr] <;> rfl

/-- Witness for C10 at concrete inputs (a page whose rendering raises). -/
theorem C10_visited_vs_pages_witness :
    "http://h/" ∈ (downloadRecursive siteRenderExn cfgFix "http://h/" "http://h/" 0
      initState).visitedUrls ∧
    (downloadRecursive siteRenderExn cfgFix "http://h/" "http://h/" 0
      initState).stats.pages = initState.stats.pages :=
  ⟨((C10_visited_vs_pages siteRenderExn cfgFix "http://h/").2.1 "http://h/" 0 initState
      (by decide) (by decide) (by decide) (by decide)).1,
   ((C10_visited_vs_pages siteRenderExn cfgFix "http://h/").2.1 "http://h/" 0 initState
      (by decide) (by decide) (by decide) (by decide)).2.2
    (Or.inr ⟨"net::ERR_FAILED", by decide⟩)⟩

/-! ## C1 -/

/-- C1: each distinct URL is fetched (network download or data-URI decode)
at most once.  (i) `_download_resource` returns without effect when the
URL is already in `downloaded_files`; (ii) over any sequence of
`_download_resource` calls from a fresh downloader, the ghost fetch log —
one entry per fetch actually started — contains every URL at most once;
(iii) the same holds over any whole crawl. -/
theorem C1_fetch_at_most_once (site : Site) (cfg : Config) :
    (∀ st url rt b, url ∈ st.downloadedFiles →
      downloadResource site cfg st url rt b = st) ∧
    (∀ calls u, ((runCalls site cfg initState calls).fetchLog.count u) ≤ 1) ∧
    (∀ su fuel url depth u,
      ((downloadRecursiveF site cfg su fuel url depth initState).fetchLog.count u) ≤ 1) := by
  have hinit : FetchInv initState :=
    ⟨List.nodup_nil, fun u hu => absurd hu (List.not_mem_nil u)⟩
  refine ⟨fun st url rt b h => downloadResource_mem site cfg st url rt b h,
    fun calls u => ?_, fun su fuel url depth u => ?_⟩
  · exact List.nodup_iff_count_le_one.mp
      ((runCalls_step site cfg initState calls).finv hinit).1 u
  · exact List.nodup_iff_count_le_one.mp
      ((downloadRecursiveF_pres site cfg su fuel url depth initState).finv hinit).1 u

/-- Witness for C1 at concrete inputs: a second reference to an
already-downloaded URL is skipped, and repeated calls fetch once. -/
theorem C1_fetch_at_most_once_witness :
    downloadResource siteLinks cfgFix stOneDownloaded "http://h/a.png" RType.images none =
      stOneDownloaded ∧
    ((runCalls siteLinks cfgFix initState callsFix).fetchLog.count "http://h/a.png") ≤ 1 ∧
    ((downloadRecursiveF siteLinks cfgFix "http://h/" 4 "http://h/" 0
      initState).fetchLog.count "http://h/") ≤ 1 :=
  ⟨(C1_fetch_at_most_once siteLinks cfgFix).1 stOneDownloaded "http://h/a.png"
      RType.images none (by decide),
   (C1_fetch_at_most_once siteLinks cfgFix).2.1 callsFix "http://h/a.png",
   (C1_fetch_at_most_once siteLinks cfgFix).2.2 "http://h/" 4 "http://h/" 0 "http://h/"⟩

/-! ## Path mapping lemmas -/

theorem pathJoin_cons (s : String) (l : List String) (p : PPath) :
    pathJoin p (s :: l) = pathJoin (pathDiv p s) l := rfl

/-- Joining a segment list appends exactly the segments `pathlib` keeps. -/
theorem pathJoin_comps : ∀ (l : List String) (p : PPath),
    (pathJoin p l).comps = p.comps ++ l.filter (fun s => !(s == "" || s == "."))
  | [], p => by simp [pathJoin]
  | s :: l, p => by
    rw [pathJoin_cons, pathJoin_comps l]
    by_cases h : (s == "" || s == ".") = true
    · have h' : s = "" ∨ s = "." := by simpa using h
      rcases h' with h' | h' <;> subst h' <;> simp [pathDiv]
    · have h1 : s ≠ "" := by intro e; subst e; simp at h
      have h2 : s ≠ "." := by intro e; subst e; simp at h
      simp [pathDiv, h, h1, h2]

theorem pathDiv_of_ne (p : PPath) (s : String)
    (h1 : s ≠ "") (h2 : s ≠ ".") :
    pathDiv p s = { p with comps := p.comps ++ [s] } := by
  simp [pathDiv, h1, h2]

/-- The component list of `url_to_filename`: base components, then the
netloc (when `pathlib` keeps it), then the sanitized path segments. -/
theorem url_to_filename_comps (url : String) (d : PPath)
    (h1 : (urlparse url).netloc ≠ "") (h2 : (urlparse url).netloc ≠ ".") :
    ∃ parts : List String,
      (url_to_filename url d).comps =
        d.comps ++ (urlparse url).netloc :: parts := by
  unfold url_to_filename
  rw [pathJoin_comps, pathDiv_of_ne _ _ h1 h2]
  simp only [List.append_assoc]
  exact ⟨_, rfl⟩

/-! ## C3 -/

/-- C3 counterexample: `url_to_filename` discards the query string, so the
two distinct canonical URLs `http://h/s.png?1` and `http://h/s.png?2` are
assigned the same local path — the claim that two different URLs never
collide on the same path is false. -/
theorem C3_counterexample :
    url_to_filename "http://h/s.png?1" ⟨true, ["o"]⟩ =
      url_to_filename "http://h/s.png?2" ⟨true, ["o"]⟩ ∧
    "http://h/s.png?1" ≠ "http://h/s.png?2" := by
  constructor
  · rfl
  · decide

/-- C3 (amended): the local path assigned by `url_to_filename` is a
function of the URL's host and path components only, so two URLs on
different hosts never collide; URLs sharing a host can collide when they
differ only in query string, fragment, trailing slash or sanitized
characters. -/
theorem C3_distinct_hosts_distinct_paths (u1 u2 : String) (d : PPath)
    (h1 : (urlparse u1).netloc ≠ "") (h1d : (urlparse u1).netloc ≠ ".")
    (h2 : (urlparse u2).netloc ≠ "") (h2d : (urlparse u2).netloc ≠ ".")
    (hne : (urlparse u1).netloc ≠ (urlparse u2).netloc) :
    url_to_filename u1 d ≠ url_to_filename u2 d := by
  intro heq
  obtain ⟨p1, hp1⟩ := url_to_filename_comps u1 d h1 h1d
  obtain ⟨p2, hp2⟩ := url_to_filename_comps u2 d h2 h2d
  have hc : (url_to_filename u1 d).comps = (url_to_filename u2 d).comps := by
    rw [heq]
  rw [hp1, hp2] at hc
  exact hne (List.head_eq_of_cons_eq (List.append_cancel_left hc))

/-- Witness for C3 (amended) at concrete inputs. -/
theorem C3_distinct_hosts_distinct_paths_witness :
    url_to_filename "http://a/x" ⟨true, ["o"]⟩ ≠
      url_to_filename "http://b/x" ⟨true, ["o"]⟩ :=
  C3_distinct_hosts_distinct_paths "http://a/x" "http://b/x" ⟨true, ["o"]⟩
    (by decide) (by decide) (by decide) (by decide) (by decide)

/-! ## C7 -/

/-- C7 counterexample: rewriting is *not* idempotent.  With registry keys
`{http://h/s.css, http://h/o/h/s.css}`, output directory `/o` and page
`http://h/c/p.html`, the reference `http://h/s.css` is registered but not
under the page's directory, so `_get_relative_path` falls back to the
absolute path `/o/h/s.css`; on a second pass that value re-normalizes to
`http://h/o/h/s.css`, which is also registered, and is rewritten again to
`/o/h/o/h/s.css` — a different document. -/
theorem C7_counterexample :
    rewrite_html_links ["http://h/s.css", "http://h/o/h/s.css"] ⟨true, ["o"]⟩
      (rewrite_html_links ["http://h/s.css", "http://h/o/h/s.css"] ⟨true, ["o"]⟩
        [⟨"img", none, some "http://h/s.css"⟩] "http://h/c/p.html")
      "http://h/c/p.html" ≠
    rewrite_html_links ["http://h/s.css", "http://h/o/h/s.css"] ⟨true, ["o"]⟩
      [⟨"img", none, some "http://h/s.css"⟩] "http://h/c/p.html" := by
  decide

/-- A tag whose rewritable attribute does not re-normalize into the
registry is a fixed point of `rewriteTag`. -/
theorem rewriteTag_fixed (keys : List String) (outDir : PPath) (baseUrl : String)
    (t : HTag)
    (h : (tagRef t).all (fun v => !(keys.contains (normalize_url v baseUrl))) = true) :
    rewriteTag keys outDir baseUrl t = t := by
  obtain ⟨name, href, src⟩ := t
  unfold tagRef at h
  unfold rewriteTag
  by_cases hl : (name == "link") = true
  · simp only [hl, if_true] at h ⊢
    cases href with
    | none => rfl
    | some v =>
      simp only [Option.all_some] at h
      have h2 : normalize_url v baseUrl ∉ keys := by simpa using h
      simp [rewriteRef, h2]
  · simp only [hl, Bool.false_eq_true, if_false] at h ⊢
    by_cases hs : (name == "script") = true
    · simp only [hs, if_true] at h ⊢
      cases src with
      | none => rfl
      | some v =>
        simp only [Option.all_some] at h
        have h2 : normalize_url v baseUrl ∉ keys := by simpa using h
        simp [rewriteRef, h2]
    · simp only [hs, Bool.false_eq_true, if_false] at h ⊢
      by_cases hi : (name == "img") = true
      · simp only [hi, if_true] at h ⊢
        cases src with
        | none => rfl
        | some v =>
          simp only [Option.all_some] at h
          have h2 : normalize_url v baseUrl ∉ keys := by simpa using h
          simp [rewriteRef, h2]
      · simp only [hi, Bool.false_eq_true, if_false] at h ⊢
        by_cases ha : (name == "a") = true
        · simp only [ha, if_true] at h ⊢
          cases href with
          | none => rfl
          | some v =>
            simp only [Option.all_some] at h
            have h2 : normalize_url v baseUrl ∉ keys := by simpa using h
            simp [rewriteRef, h2]
        · simp [ha]

/-- C7 (amended): applying the rewrite twice yields the same markup as
applying it once *provided* no attribute value produced by the first pass
re-normalizes (against the page URL) to a URL that is itself in the
registry; in general a second application can differ, because the
absolute-path fallback of `_get_relative_path` can resolve back into the
registry (see the counterexample). -/
theorem C7_rewrite_idempotent_of_no_reresolve (keys : List String)
    (outDir : PPath) (html : List HTag) (baseUrl : String)
    (h : ∀ t ∈ rewrite_html_links keys outDir html baseUrl,
      (tagRef t).all (fun v => !(keys.contains (normalize_url v baseUrl))) = true) :
    rewrite_html_links keys outDir
        (rewrite_html_links keys outDir html baseUrl) baseUrl =
      rewrite_html_links keys outDir html baseUrl := by
  unfold rewrite_html_links at *
  rw [List.map_map]
  apply List.map_congr_left
  intro t ht
  exact rewriteTag_fixed keys outDir baseUrl _
    (h _ (List.mem_map_of_mem _ ht))

/-- Witness for C7 (amended): a registered cross-host image reference; its
rewritten value re-normalizes to a URL outside the registry, so the
hypothesis holds and the rewrite is stable there. -/
theorem C7_rewrite_idempotent_witness :
    (∀ t ∈ rewrite_html_links ["http://q/i.png"] ⟨true, ["o"]⟩
        [⟨"img", none, some "http://q/i.png"⟩] "http://h/p.html",
      (tagRef t).all
        (fun v => !(List.contains ["http://q/i.png"] (normalize_url v "http://h/p.html"))) = true) ∧
    rewrite_html_links ["http://q/i.png"] ⟨true, ["o"]⟩
        (rewrite_html_links ["http://q/i.png"] ⟨true, ["o"]⟩
          [⟨"img", none, some "http://q/i.png"⟩] "http://h/p.html") "http://h/p.html" =
      rewrite_html_links ["http://q/i.png"] ⟨true, ["o"]⟩
        [⟨"img", none, some "http://q/i.png"⟩] "http://h/p.html" :=
  ⟨by decide, C7_rewrite_idempotent_of_no_reresolve _ _ _ _ (by decide)⟩

end WebCloner
